import Mathlib

/-!
Verification of the Reader Toolbar Augmenter (src/src/plugin.ts).

The plugin injects a "previous page" / "next page" button pair into the
toolbar of every open snapshot-reader tab.  This file gives a shallow
embedding of the plugin's state and operations and proves the spec's
claims about them.

Modelling conventions:
* The host's asynchronous readiness signals (`reader._waitForReader()`,
  `reader._initPromise`) are host-owned promises with no observable
  effect on the plugin; the embedding treats them as resolved.
* DOM lookups performed by `attachButtonsToReader` are captured in a
  `ReaderEnv` record: whether the reader document is present, the result
  of the `.primary-view iframe` query, and the children of the
  `div.toolbar .start` section (elements are modelled by the fields the
  code inspects: id, title, classes, tabIndex, embedded svg).
* Tab identifiers (`string | number` in the source) are modelled as
  strings.
* Each invocation's side effects are returned explicitly: the plugin
  state after the call, the diagnostic log messages emitted, the list of
  buttons appended to the toolbar section (in append order, each with
  the scroll delta its click handler was wired to), and whether the
  invocation suspended forever awaiting the iframe load event.
-/

namespace ZPS

/-- Content window of an iframe, identified abstractly; the only
capability the plugin uses is `scrollByPages`. -/
structure Window where
  winId : Nat
deriving DecidableEq

/-- An svg `path` element as built by `getButton`. -/
structure SvgPathElem where
  fill : String
  d : String
deriving DecidableEq

/-- An `svg` element as built by `getButton`. -/
structure SvgElem where
  xmlns : String
  width : String
  height : String
  fill : String
  paths : List SvgPathElem
deriving DecidableEq

/-- A DOM element with the fields the plugin reads or writes.  Both the
buttons constructed by `getButton` and the pre-existing children of the
toolbar section are modelled by this record (the code only queries the
latter by id). -/
structure ButtonElem where
  id : String
  title : String
  classes : List String
  tabIndex : Int
  svgs : List SvgElem
deriving DecidableEq

/-- The element returned by the `.primary-view iframe` query: its tag
name, whether a content window is synchronously available, and what the
frame's load event would deliver (if it ever fires). -/
structure IFrameElem where
  tagName : String
  contentWindowNow : Option Window
  loadFires : Bool
  contentWindowAfterLoad : Option Window
deriving DecidableEq

/-- One reader handle together with the DOM the plugin would observe
when attaching to it. `rtype` is the reader's content-kind discriminator
(`reader.type` in the source). -/
structure ReaderEnv where
  tabID : String
  rtype : String
  docPresent : Bool
  iframeQuery : Option IFrameElem
  toolbarSection : Option (List ButtonElem)
deriving DecidableEq

/-- The plugin's mutable instance state: the attached-tab set
(`#updatedTabs`), the `#isActive` flag, whether the renderToolbar
listener is registered, the notifier observer id (`#observerID`), and
the tracked menu-element ids (`#addedElementIDs`). -/
structure PluginState where
  updatedTabs : List String
  isActive : Bool
  listenerRegistered : Bool
  observerID : Option String
  addedElementIDs : List String
deriving DecidableEq

/-- The plugin state right after construction. -/
def initialState : PluginState :=
  { updatedTabs := []
    isActive := true
    listenerRegistered := false
    observerID := none
    addedElementIDs := [] }

/-- A button appended to the toolbar, with the window and page delta its
click handler was wired to (`() => win.scrollByPages(delta)`). -/
structure WiredButton where
  button : ButtonElem
  win : Window
  delta : Int
deriving DecidableEq

/-- The invocation a wired click handler performs when the button is
clicked: `win.scrollByPages(pages)`. -/
structure ScrollInvocation where
  win : Window
  pages : Int
deriving DecidableEq

/-- Simulate a click on a wired button: the handler calls
`scrollByPages` on the captured window with the captured delta. -/
def simulateClick (wb : WiredButton) : ScrollInvocation :=
  { win := wb.win, pages := wb.delta }

/-- The diagnostic messages `attachButtonsToReader` can emit (via
`this.log`), one constructor per `this.log` call site. -/
inductive LogMsg where
  | notReady (tabID : String)
  | noIframeWindow (tabID : String)
  | noToolbar (tabID : String)
  | alreadyAdded (tabID : String)
deriving DecidableEq

/-- Observable outcome of one `attachButtonsToReader` invocation:
resulting plugin state, emitted diagnostics, buttons appended to the
toolbar section (in order), and whether the call suspended forever at
the iframe load await. -/
structure AttachResult where
  state : PluginState
  logs : List LogMsg
  appended : List WiredButton
  stalled : Bool
deriving DecidableEq

/-- Direction argument of `getButton`. -/
inductive Direction where
  | next
  | previous
deriving DecidableEq

/-- Outcome of a host promise: resolved with a value, rejected, or never
settled. -/
inductive PromiseOutcome (α : Type) where
  | resolved (value : α)
  | rejected
  | pending
deriving DecidableEq

/-- The two programmer-error guards thrown by the component. -/
inductive PluginError where
  | observerAlreadyRegistered
  | elementMustHaveId
deriving DecidableEq

/-- ASCII upper-casing of one character (`toUpperCase` on the tag names
the DOM produces). -/
def upperChar (c : Char) : Char :=
  if 97 ≤ c.toNat ∧ c.toNat ≤ 122 then Char.ofNat (c.toNat - 32) else c

/-- ASCII upper-casing of a string. -/
def upperString (s : String) : String :=
  String.mk (s.data.map upperChar)

/-- `isIframe` from the source: `e.tagName.toUpperCase() === "IFRAME"`. -/
def isIframe (e : IFrameElem) : Bool :=
  upperString e.tagName == "IFRAME"

/-- `isSnapshotReader` from the source: `r.type === "snapshot"`. -/
def isSnapshotReader (r : ReaderEnv) : Bool :=
  r.rtype == "snapshot"

/-- `Plugin.getIFrameWindow`: resolves synchronously with the content
window when available; otherwise resolves with `contentWindow || null`
once the load event fires; if the load event never fires the promise
stays pending.  The executor never calls reject. -/
def getIFrameWindow (f : IFrameElem) : PromiseOutcome (Option Window) :=
  match f.contentWindowNow with
  | some w => PromiseOutcome.resolved (some w)
  | none =>
    if f.loadFires then PromiseOutcome.resolved f.contentWindowAfterLoad
    else PromiseOutcome.pending

/-- The svg namespace string used by `getButton`. -/
def svgNS : String := "http://www.w3.org/2000/svg"

/-- Chevron path geometry for the next-page button. -/
def nextPathD : String := "m17.116 6 .884.884-8 8-8-8L2.884 6 10 13.116z"

/-- Chevron path geometry for the previous-page button. -/
def prevPathD : String := "M2.884 14 2 13.116l8-8 8 8-.884.884L10 6.884z"

/-- `Plugin.getButton`: pure construction of one navigation button.  The
document argument of the source is only an element factory, so the
result depends on the direction alone. -/
def getButton (dir : Direction) : ButtonElem :=
  let path : SvgPathElem :=
    { fill := "currentColor"
      d := match dir with
        | Direction.next => nextPathD
        | Direction.previous => prevPathD }
  let svg : SvgElem :=
    { xmlns := svgNS
      width := "20"
      height := "20"
      fill := "none"
      paths := [path] }
  { id := match dir with
      | Direction.next => "next"
      | Direction.previous => "previous"
    title := match dir with
      | Direction.next => "Next Page"
      | Direction.previous => "Previous Page"
    classes := ["toolbar-button", "pageUp"]
    tabIndex := -1
    svgs := [svg] }

/-- The combined document/frame lookup of `attachButtonsToReader`:
`doc?.querySelector(".primary-view iframe")` guarded by
`!doc || !iframe || !isIframe(iframe)`.  Returns the frame only when the
document is present, the query matched, and the element is a frame. -/
def resolveIframe (r : ReaderEnv) : Option IFrameElem :=
  match (if r.docPresent then r.iframeQuery else none) with
  | some f => if isIframe f then some f else none
  | none => none

/-- `Plugin.attachButtonsToReader`, one sequential invocation.  Mirrors
the source line by line: set-membership guard, readiness awaits (modelled
as resolved), document/frame lookup, iframe-window resolution, toolbar
lookup, pre-existing-button recheck, button construction and wiring,
appends (previous then next), and finally recording the tab id.  The
`rejected` branch of the window promise is unreachable (see
`getIFrameWindow`); it is mapped to a stall. -/
def attachButtonsToReader (st : PluginState) (r : ReaderEnv) : AttachResult :=
  if r.tabID ∈ st.updatedTabs then
    { state := st, logs := [], appended := [], stalled := false }
  else
    match resolveIframe r with
    | none =>
      { state := st, logs := [LogMsg.notReady r.tabID], appended := [], stalled := false }
    | some f =>
      match getIFrameWindow f with
      | PromiseOutcome.pending =>
        { state := st, logs := [], appended := [], stalled := true }
      | PromiseOutcome.rejected =>
        { state := st, logs := [], appended := [], stalled := true }
      | PromiseOutcome.resolved none =>
        { state := st, logs := [LogMsg.noIframeWindow r.tabID], appended := [], stalled := false }
      | PromiseOutcome.resolved (some win) =>
        match r.toolbarSection with
        | none =>
          { state := st, logs := [LogMsg.noToolbar r.tabID], appended := [], stalled := false }
        | some children =>
          if children.any (fun e => e.id == "next")
              || children.any (fun e => e.id == "previous") then
            { state := st, logs := [LogMsg.alreadyAdded r.tabID], appended := [], stalled := false }
          else
            { state := { st with updatedTabs := st.updatedTabs ++ [r.tabID] }
              logs := []
              appended :=
                [ { button := getButton Direction.previous, win := win, delta := -1 }
                , { button := getButton Direction.next, win := win, delta := 1 } ]
              stalled := false }

/-- Toolbar-section children after an invocation: the original children
followed by the appended buttons. -/
def toolbarAfter (r : ReaderEnv) (res : AttachResult) : Option (List ButtonElem) :=
  r.toolbarSection.map (fun cs => cs ++ res.appended.map WiredButton.button)

/-- The same reader handle as observed by a later invocation: the
toolbar section now holds whatever the earlier invocation appended. -/
def envAfter (r : ReaderEnv) (res : AttachResult) : ReaderEnv :=
  { r with toolbarSection := toolbarAfter r res }

/-- `Plugin.onRenderToolbar`: attach when the reader is a snapshot
reader, otherwise do nothing (no log, no error). -/
def onRenderToolbar (st : PluginState) (r : ReaderEnv) : AttachResult :=
  if isSnapshotReader r then attachButtonsToReader st r
  else { state := st, logs := [], appended := [], stalled := false }

/-- Sequential processing of a list of readers, recording each reader
with its invocation outcome (the effect of
`Promise.all(readers.map((r) => this.attachButtonsToReader(r)))` in the
single-threaded event-loop model). -/
def attachAll (st : PluginState) (readers : List ReaderEnv) :
    PluginState × List (ReaderEnv × AttachResult) :=
  match readers with
  | [] => (st, [])
  | r :: rest =>
    let res := attachButtonsToReader st r
    let out := attachAll res.state rest
    (out.1, (r, res) :: out.2)

/-- `Plugin.handleExistingTabs`: filter the host's open readers to
snapshot readers and attach to each, awaiting all of them. -/
def handleExistingTabs (st : PluginState) (readers : List ReaderEnv) :
    PluginState × List (ReaderEnv × AttachResult) :=
  attachAll st (readers.filter isSnapshotReader)

/-- `Plugin.startup`: register the renderToolbar listener (addToWindow
is a no-op in this variant), then handle all already-open tabs; the
returned completion is that of `handleExistingTabs`. -/
def startup (st : PluginState) (readers : List ReaderEnv) :
    PluginState × List (ReaderEnv × AttachResult) :=
  handleExistingTabs { st with listenerRegistered := true } readers

/-- `Plugin.shutdown`: unregister the renderToolbar listener
(removeFromWindow is a no-op in this variant). -/
def shutdown (st : PluginState) : PluginState :=
  { st with listenerRegistered := false }

/-- `Plugin.registerObserver`: throws when an observer is already
registered, otherwise stores the new observer id. -/
def registerObserver (st : PluginState) (newID : String) :
    Except PluginError PluginState :=
  match st.observerID with
  | some _ => Except.error PluginError.observerAlreadyRegistered
  | none => Except.ok { st with observerID := some newID }

/-- `Plugin.unregisterObserver`: clears the stored observer id. -/
def unregisterObserver (st : PluginState) : PluginState :=
  { st with observerID := none }

/-- `Plugin.storeAddedElement`: throws when the element has no id (empty
string is falsy), otherwise records the id. -/
def storeAddedElement (st : PluginState) (elemId : String) :
    Except PluginError PluginState :=
  if elemId == "" then Except.error PluginError.elementMustHaveId
  else Except.ok { st with addedElementIDs := st.addedElementIDs ++ [elemId] }

/-- The menuitem command listener installed by `addMenuItems`: the only
writer of `#isActive`. -/
def menuItemCommand (st : PluginState) (isChecked : Bool) : PluginState :=
  { st with isActive := isChecked }

/-- Whether an operation threw. -/
def threw (e : Except PluginError PluginState) : Bool :=
  match e with
  | Except.error _ => true
  | Except.ok _ => false

/-- Number of elements with the given id among the toolbar children. -/
def countId (elems : List ButtonElem) (i : String) : Nat :=
  (elems.filter (fun e => e.id == i)).length

/-- Counts of next/previous buttons in a (possibly absent) toolbar. -/
def pairsIn (tb : Option (List ButtonElem)) : Nat × Nat :=
  match tb with
  | none => (0, 0)
  | some es => (countId es "next", countId es "previous")

/-- Whether an invocation at state `st` would pass the set-membership
guard and enter the attachment body. -/
def entersBody (st : PluginState) (r : ReaderEnv) : Bool :=
  !(st.updatedTabs.contains r.tabID)

/-- Over a sequence of attach invocations, how many of those for tab
`tab` proceed past the set-membership guard into the attachment body. -/
def bodyEntries (st : PluginState) (events : List ReaderEnv) (tab : String) : Nat :=
  match events with
  | [] => 0
  | r :: rest =>
    let res := attachButtonsToReader st r
    (if r.tabID = tab ∧ entersBody st r = true then 1 else 0)
      + bodyEntries res.state rest tab

/-- Over a sequence of attach invocations, how many of those for tab
`tab` complete the attachment body (append buttons). -/
def completedAttaches (st : PluginState) (events : List ReaderEnv) (tab : String) : Nat :=
  match events with
  | [] => 0
  | r :: rest =>
    let res := attachButtonsToReader st r
    (if r.tabID = tab ∧ res.appended ≠ [] then 1 else 0)
      + completedAttaches res.state rest tab

/-- All attachment preconditions of one reader environment: document
present, frame query matched with a frame-kind element whose window
promise resolves with a window, toolbar section present without
pre-existing next/previous buttons. -/
def readyEnv (r : ReaderEnv) : Prop :=
  r.docPresent = true ∧
  (∃ f, r.iframeQuery = some f ∧ isIframe f = true ∧
    ∃ w, getIFrameWindow f = PromiseOutcome.resolved (some w)) ∧
  (∃ cs, r.toolbarSection = some cs ∧
    (cs.any (fun e => e.id == "next") || cs.any (fun e => e.id == "previous")) = false)

/-- Attachment preconditions relative to a state: the tab is not yet
recorded and the environment is ready. -/
def attachReady (st : PluginState) (r : ReaderEnv) : Prop :=
  r.tabID ∉ st.updatedTabs ∧ readyEnv r

/-- The soft-failure configurations of `attachButtonsToReader`: tab not
yet recorded, and the invocation hits one of the logged early returns —
missing document, missing frame, non-frame element, window promise
resolved without a window, missing toolbar section, or pre-existing
buttons. -/
def softFailEnv (st : PluginState) (r : ReaderEnv) : Prop :=
  r.tabID ∉ st.updatedTabs ∧
  ( r.docPresent = false
  ∨ (r.docPresent = true ∧ r.iframeQuery = none)
  ∨ (∃ f, r.docPresent = true ∧ r.iframeQuery = some f ∧ isIframe f = false)
  ∨ (∃ f, r.docPresent = true ∧ r.iframeQuery = some f ∧ isIframe f = true ∧
      getIFrameWindow f = PromiseOutcome.resolved none)
  ∨ (∃ f w, r.docPresent = true ∧ r.iframeQuery = some f ∧ isIframe f = true ∧
      getIFrameWindow f = PromiseOutcome.resolved (some w) ∧ r.toolbarSection = none)
  ∨ (∃ f w cs, r.docPresent = true ∧ r.iframeQuery = some f ∧ isIframe f = true ∧
      getIFrameWindow f = PromiseOutcome.resolved (some w) ∧ r.toolbarSection = some cs ∧
      (cs.any (fun e => e.id == "next") || cs.any (fun e => e.id == "previous")) = true))

/-- A content window available synchronously. -/
def win0 : Window := { winId := 0 }

/-- A well-formed iframe whose content window is synchronously
available. -/
def frame0 : IFrameElem :=
  { tagName := "IFRAME"
    contentWindowNow := some win0
    loadFires := true
    contentWindowAfterLoad := some win0 }

/-- A fully ready snapshot-reader environment with the given tab id and
an empty toolbar section. -/
def goodEnv (tab : String) : ReaderEnv :=
  { tabID := tab
    rtype := "snapshot"
    docPresent := true
    iframeQuery := some frame0
    toolbarSection := some [] }

/-- A snapshot-reader environment whose toolbar section is missing (a
soft-failure case). -/
def noToolbarEnv (tab : String) : ReaderEnv :=
  { tabID := tab
    rtype := "snapshot"
    docPresent := true
    iframeQuery := some frame0
    toolbarSection := none }

/-- A snapshot-reader environment whose content document is missing. -/
def noDocEnv (tab : String) : ReaderEnv :=
  { tabID := tab
    rtype := "snapshot"
    docPresent := false
    iframeQuery := none
    toolbarSection := none }

/-- A non-snapshot reader environment. -/
def pdfEnv (tab : String) : ReaderEnv :=
  { tabID := tab
    rtype := "pdf"
    docPresent := true
    iframeQuery := some frame0
    toolbarSection := some [] }

/-- The plugin state right after `startup` has registered the
renderToolbar listener, before any existing tab is handled. -/
def startedState : PluginState :=
  { initialState with listenerRegistered := true }

/-- The same plugin state with the `#isActive` flag overwritten. -/
def setActive (st : PluginState) (b : Bool) : PluginState :=
  { st with isActive := b }

/-- The isActive-blind observables of a plugin state. -/
def stateObs (st : PluginState) :
    List String × Bool × Option String × List String :=
  (st.updatedTabs, st.listenerRegistered, st.observerID, st.addedElementIDs)

/-- The isActive-blind observables of one invocation outcome. -/
def resultObs (res : AttachResult) :
    (List String × Bool × Option String × List String)
      × List LogMsg × List WiredButton × Bool :=
  (stateObs res.state, res.logs, res.appended, res.stalled)

/-- The isActive-blind observables of a startup run. -/
def startupObs (out : PluginState × List (ReaderEnv × AttachResult)) :
    (List String × Bool × Option String × List String)
      × List (ReaderEnv ×
        ((List String × Bool × Option String × List String)
          × List LogMsg × List WiredButton × Bool)) :=
  (stateObs out.1, out.2.map (fun pr => (pr.1, resultObs pr.2)))

/-- Helper lemma: when the tab is already recorded, the set-membership
guard returns at once with no observable effect. -/
theorem attach_guard_eq (st : PluginState) (r : ReaderEnv)
    (h : r.tabID ∈ st.updatedTabs) :
    attachButtonsToReader st r =
      { state := st, logs := [], appended := [], stalled := false } := by
  simp [attachButtonsToReader, h]

/-- Helper lemma: when every precondition holds, the invocation appends
the wired previous/next pair and records the tab id. -/
theorem attach_success_eq (st : PluginState) (r : ReaderEnv)
    (f : IFrameElem) (w : Window) (cs : List ButtonElem)
    (hTab : r.tabID ∉ st.updatedTabs)
    (hDoc : r.docPresent = true)
    (hIf : r.iframeQuery = some f)
    (hKind : isIframe f = true)
    (hWin : getIFrameWindow f = PromiseOutcome.resolved (some w))
    (hTb : r.toolbarSection = some cs)
    (hNo : (cs.any (fun e => e.id == "next")
        || cs.any (fun e => e.id == "previous")) = false) :
    attachButtonsToReader st r =
      { state := { st with updatedTabs := st.updatedTabs ++ [r.tabID] }
        logs := []
        appended :=
          [ { button := getButton Direction.previous, win := w, delta := -1 }
          , { button := getButton Direction.next, win := w, delta := 1 } ]
        stalled := false } := by
  simp [attachButtonsToReader, resolveIframe, hTab, hDoc, hIf, hKind, hWin, hTb, hNo]

/-- Helper lemma: on every soft-failure configuration the invocation
leaves the state untouched, appends nothing, does not stall, and emits
exactly one diagnostic. -/
theorem attach_softfail (st : PluginState) (r : ReaderEnv)
    (h : softFailEnv st r) :
    (attachButtonsToReader st r).state = st ∧
    (attachButtonsToReader st r).appended = [] ∧
    (attachButtonsToReader st r).stalled = false ∧
    (attachButtonsToReader st r).logs.length = 1 := by
  obtain ⟨hTab, hcase⟩ := h
  rcases hcase with hd
    | ⟨hd, hq⟩
    | ⟨f, hd, hq, hk⟩
    | ⟨f, hd, hq, hk, hw⟩
    | ⟨f, w, hd, hq, hk, hw, ht⟩
    | ⟨f, w, cs, hd, hq, hk, hw, ht, hpre⟩
  · simp [attachButtonsToReader, resolveIframe, hTab, hd]
  · simp [attachButtonsToReader, resolveIframe, hTab, hd, hq]
  · simp [attachButtonsToReader, resolveIframe, hTab, hd, hq, hk]
  · simp [attachButtonsToReader, resolveIframe, hTab, hd, hq, hk, hw]
  · simp [attachButtonsToReader, resolveIframe, hTab, hd, hq, hk, hw, ht]
  · simp [attachButtonsToReader, resolveIframe, hTab, hd, hq, hk, hw, ht, hpre]

/-- Helper lemma: an invocation ends in one of four shapes — immediate
guarded return, logged early return, stall, or successful attachment. -/
theorem attach_cases (st : PluginState) (r : ReaderEnv) :
    attachButtonsToReader st r =
      { state := st, logs := [], appended := [], stalled := false } ∨
    (∃ m, attachButtonsToReader st r =
      { state := st, logs := [m], appended := [], stalled := false }) ∨
    attachButtonsToReader st r =
      { state := st, logs := [], appended := [], stalled := true } ∨
    (∃ w, attachButtonsToReader st r =
      { state := { st with updatedTabs := st.updatedTabs ++ [r.tabID] }
        logs := []
        appended :=
          [ { button := getButton Direction.previous, win := w, delta := -1 }
          , { button := getButton Direction.next, win := w, delta := 1 } ]
        stalled := false }) := by
  unfold attachButtonsToReader
  repeat' split
  all_goals
    first
    | exact Or.inl rfl
    | exact Or.inr (Or.inl ⟨_, rfl⟩)
    | exact Or.inr (Or.inr (Or.inl rfl))
    | exact Or.inr (Or.inr (Or.inr ⟨_, rfl⟩))

/-- Helper lemma: every invocation either keeps the state or appends the
tab id to the attached-tab set. -/
theorem attach_state_shape (st : PluginState) (r : ReaderEnv) :
    (attachButtonsToReader st r).state = st ∨
    (attachButtonsToReader st r).state =
      { st with updatedTabs := st.updatedTabs ++ [r.tabID] } := by
  unfold attachButtonsToReader
  repeat' split
  all_goals simp

/-- Helper lemma: membership of the attached-tab set is preserved by
every invocation. -/
theorem attach_mem_mono (st : PluginState) (r : ReaderEnv) (tab : String)
    (h : tab ∈ st.updatedTabs) :
    tab ∈ (attachButtonsToReader st r).state.updatedTabs := by
  rcases attach_state_shape st r with hs | hs <;> rw [hs] <;> simp [h]

/-- Helper lemma: an invocation that appends buttons records its tab id. -/
theorem attach_appended_state (st : PluginState) (r : ReaderEnv)
    (h : (attachButtonsToReader st r).appended ≠ []) :
    (attachButtonsToReader st r).state.updatedTabs = st.updatedTabs ++ [r.tabID] := by
  rcases attach_cases st r with hc | ⟨m, hc⟩ | hc | ⟨w, hc⟩ <;>
    rw [hc] at h ⊢ <;> simp_all

/-- Helper lemma: once a tab id is in the attached-tab set, no later
invocation of the sequence completes the attachment body for it. -/
theorem completedAttaches_zero (events : List ReaderEnv) (st : PluginState)
    (tab : String) (h : tab ∈ st.updatedTabs) :
    completedAttaches st events tab = 0 := by
  induction events generalizing st with
  | nil => rfl
  | cons r rest ih =>
    show (if r.tabID = tab ∧ (attachButtonsToReader st r).appended ≠ [] then 1 else 0)
        + completedAttaches (attachButtonsToReader st r).state rest tab = 0
    by_cases htab : r.tabID = tab
    · rw [attach_guard_eq st r (htab ▸ h)]
      simpa using ih st h
    · simp [htab, ih _ (attach_mem_mono st r tab h)]

/-- Helper lemma: the per-tab trace of `attachAll` covers exactly the
given readers, in order. -/
theorem attachAll_map_fst (readers : List ReaderEnv) (st : PluginState) :
    ((attachAll st readers).2).map Prod.fst = readers := by
  induction readers generalizing st with
  | nil => rfl
  | cons r rest ih => simp [attachAll, ih]

/-- Helper lemma: `attachButtonsToReader` neither reads nor clears the
`#isActive` flag — flipping it changes no observable of the invocation. -/
theorem attach_setActive (st : PluginState) (b : Bool) (r : ReaderEnv) :
    (attachButtonsToReader (setActive st b) r).state
        = setActive (attachButtonsToReader st r).state b ∧
    (attachButtonsToReader (setActive st b) r).logs
        = (attachButtonsToReader st r).logs ∧
    (attachButtonsToReader (setActive st b) r).appended
        = (attachButtonsToReader st r).appended ∧
    (attachButtonsToReader (setActive st b) r).stalled
        = (attachButtonsToReader st r).stalled := by
  by_cases hmem : r.tabID ∈ st.updatedTabs
  · rw [attach_guard_eq st r hmem,
      attach_guard_eq (setActive st b) r (by simpa [setActive] using hmem)]
    simp [setActive]
  · cases hif : resolveIframe r with
    | none => simp [attachButtonsToReader, setActive, hmem, hif]
    | some f =>
      cases hw : getIFrameWindow f with
      | pending => simp [attachButtonsToReader, setActive, hmem, hif, hw]
      | rejected => simp [attachButtonsToReader, setActive, hmem, hif, hw]
      | resolved ow =>
        cases ow with
        | none => simp [attachButtonsToReader, setActive, hmem, hif, hw]
        | some w =>
          cases ht : r.toolbarSection with
          | none => simp [attachButtonsToReader, setActive, hmem, hif, hw, ht]
          | some cs =>
            by_cases hpre : (cs.any (fun e => e.id == "next")
                || cs.any (fun e => e.id == "previous")) = true
            · simp [attachButtonsToReader, setActive, hmem, hif, hw, ht, hpre]
            · simp [attachButtonsToReader, setActive, hmem, hif, hw, ht, hpre]

/-- Helper lemma: flipping `#isActive` changes no observable of a whole
`attachAll` run. -/
theorem attachAll_setActive (readers : List ReaderEnv) (st : PluginState) (b : Bool) :
    (attachAll (setActive st b) readers).1 = setActive (attachAll st readers).1 b ∧
    ((attachAll (setActive st b) readers).2).map (fun pr => (pr.1, resultObs pr.2)) =
      ((attachAll st readers).2).map (fun pr => (pr.1, resultObs pr.2)) := by
  induction readers generalizing st with
  | nil => exact ⟨rfl, rfl⟩
  | cons r rest ih =>
    obtain ⟨h1, h2, h3, h4⟩ := attach_setActive st b r
    obtain ⟨ih1, ih2⟩ := ih (attachButtonsToReader st r).state
    have hso : ∀ s : PluginState, stateObs (setActive s b) = stateObs s :=
      fun s => rfl
    have hobs : resultObs (attachButtonsToReader (setActive st b) r)
        = resultObs (attachButtonsToReader st r) := by
      unfold resultObs
      rw [h1, h2, h3, h4, hso]
    have hL : attachAll (setActive st b) (r :: rest)
        = ((attachAll (attachButtonsToReader (setActive st b) r).state rest).1,
           (r, attachButtonsToReader (setActive st b) r)
             :: (attachAll (attachButtonsToReader (setActive st b) r).state rest).2) := rfl
    have hR : attachAll st (r :: rest)
        = ((attachAll (attachButtonsToReader st r).state rest).1,
           (r, attachButtonsToReader st r)
             :: (attachAll (attachButtonsToReader st r).state rest).2) := rfl
    rw [hL, hR, h1]
    exact ⟨ih1, by simp [hobs, ih2]⟩

/-- Helper lemma: `countId` distributes over append. -/
theorem countId_append (xs ys : List ButtonElem) (i : String) :
    countId (xs ++ ys) i = countId xs i + countId ys i := by
  simp [countId, List.filter_append]

/-- Helper lemma: a child list whose `any` id-check is false holds no
element with that id. -/
theorem countId_eq_zero (xs : List ButtonElem) (i : String)
    (h : xs.any (fun e => e.id == i) = false) : countId xs i = 0 := by
  simp only [List.any_eq_false] at h
  simp only [countId, List.length_eq_zero]
  exact List.filter_eq_nil_iff.mpr h

/-- Helper lemma: appending the previous/next pair to a toolbar with no
pre-existing pair yields exactly one pair. -/
theorem pairsIn_append_pair (cs : List ButtonElem)
    (hNo : (cs.any (fun e => e.id == "next")
        || cs.any (fun e => e.id == "previous")) = false) :
    pairsIn (some (cs ++ [getButton Direction.previous, getButton Direction.next]))
      = (1, 1) := by
  rw [Bool.or_eq_false_iff] at hNo
  have h1 := countId_eq_zero cs "next" hNo.1
  have h2 := countId_eq_zero cs "previous" hNo.2
  have h3 : countId [getButton Direction.previous, getButton Direction.next] "next" = 1 := by
    decide
  have h4 : countId [getButton Direction.previous, getButton Direction.next] "previous" = 1 := by
    decide
  simp [pairsIn, countId_append, h1, h2, h3, h4]

/-- Claim C7: button construction is pure and deterministic — for the
next direction the identifier is "next" and the tooltip "Next Page", for
the previous direction "previous" and "Previous Page"; every button
carries the two style classes, tabIndex -1, and a 20x20 svg whose path
geometry is the fixed string of its direction.  Determinism and absence
of side effects hold by construction: `getButton` is a pure function of
the direction. -/
theorem getButton_identity_and_shape :
    (getButton Direction.next).id = "next" ∧
    (getButton Direction.next).title = "Next Page" ∧
    (getButton Direction.previous).id = "previous" ∧
    (getButton Direction.previous).title = "Previous Page" ∧
    (∀ dir : Direction,
      (getButton dir).classes = ["toolbar-button", "pageUp"] ∧
      (getButton dir).tabIndex = -1 ∧
      (getButton dir).svgs =
        [ { xmlns := svgNS, width := "20", height := "20", fill := "none"
            paths := [ { fill := "currentColor"
                         d := match dir with
                           | Direction.next => nextPathD
                           | Direction.previous => prevPathD } ] } ]) := by
  refine ⟨rfl, rfl, rfl, rfl, fun dir => ?_⟩
  cases dir <;> exact ⟨rfl, rfl, rfl⟩

/-- Claim C6: a toolbar-render event whose reader is not of the
snapshot kind never reaches the attach operation: no button is created,
no diagnostic is logged, no state changes, nothing is thrown. -/
theorem onRenderToolbar_ignores_non_snapshot (st : PluginState) (r : ReaderEnv)
    (h : r.rtype ≠ "snapshot") :
    onRenderToolbar st r =
      { state := st, logs := [], appended := [], stalled := false } := by
  simp [onRenderToolbar, isSnapshotReader, h]

/-- Witness for C6 at a concrete pdf reader. -/
theorem onRenderToolbar_ignores_non_snapshot_witness :
    onRenderToolbar initialState (pdfEnv "T") =
      { state := initialState, logs := [], appended := [], stalled := false } :=
  onRenderToolbar_ignores_non_snapshot initialState (pdfEnv "T") (by decide)

/-- Claim C10: getIFrameWindow never rejects — it resolves synchronously
with the content window when one is already available, otherwise
resolves with the then-available window or null once the load event
fires, and stays pending forever when the load event never fires. -/
theorem getIFrameWindow_never_rejects (f : IFrameElem) :
    getIFrameWindow f ≠ PromiseOutcome.rejected ∧
    (∀ w, f.contentWindowNow = some w →
      getIFrameWindow f = PromiseOutcome.resolved (some w)) ∧
    (f.contentWindowNow = none → f.loadFires = true →
      getIFrameWindow f = PromiseOutcome.resolved f.contentWindowAfterLoad) ∧
    (f.contentWindowNow = none → f.loadFires = false →
      getIFrameWindow f = PromiseOutcome.pending) := by
  unfold getIFrameWindow
  cases hc : f.contentWindowNow with
  | some w => simp
  | none => by_cases hl : f.loadFires <;> simp [hl]

/-- Witness for C10 at a concrete iframe with a synchronous window. -/
theorem getIFrameWindow_never_rejects_witness :
    getIFrameWindow frame0 ≠ PromiseOutcome.rejected ∧
    getIFrameWindow frame0 = PromiseOutcome.resolved (some win0) :=
  ⟨(getIFrameWindow_never_rejects frame0).1,
   (getIFrameWindow_never_rejects frame0).2.1 win0 rfl⟩

/-- Claim C2: on every soft-failure configuration of
attachButtonsToReader — missing content document, missing content-frame
element, non-iframe element, window promise resolved without a window,
missing toolbar section, pre-existing buttons found by identifier — the
invocation logs exactly one diagnostic and returns: the state (hence the
attached-tab set) is unchanged, nothing is appended to the DOM, and the
call neither stalls nor throws (the embedding returns a plain result;
the source path has no throw site). -/
theorem attach_soft_failure_paths (st : PluginState) (r : ReaderEnv)
    (h : softFailEnv st r) :
    (attachButtonsToReader st r).state = st ∧
    (attachButtonsToReader st r).appended = [] ∧
    (attachButtonsToReader st r).stalled = false ∧
    (attachButtonsToReader st r).logs.length = 1 :=
  attach_softfail st r h

/-- Witness for C2 at a reader with a missing content document. -/
theorem attach_soft_failure_paths_witness :
    (attachButtonsToReader initialState (noDocEnv "T")).state = initialState ∧
    (attachButtonsToReader initialState (noDocEnv "T")).appended = [] ∧
    (attachButtonsToReader initialState (noDocEnv "T")).stalled = false ∧
    (attachButtonsToReader initialState (noDocEnv "T")).logs.length = 1 :=
  attach_soft_failure_paths initialState (noDocEnv "T")
    ⟨by decide, Or.inl rfl⟩

/-- Claim C3: on a successful attachment the previous button is appended
before the next button, the next button's click handler invokes the
content window's scrollByPages with +1, and the previous button's with
-1. -/
theorem attach_click_wiring (st : PluginState) (r : ReaderEnv)
    (f : IFrameElem) (w : Window) (cs : List ButtonElem)
    (hTab : r.tabID ∉ st.updatedTabs)
    (hDoc : r.docPresent = true)
    (hIf : r.iframeQuery = some f)
    (hKind : isIframe f = true)
    (hWin : getIFrameWindow f = PromiseOutcome.resolved (some w))
    (hTb : r.toolbarSection = some cs)
    (hNo : (cs.any (fun e => e.id == "next")
        || cs.any (fun e => e.id == "previous")) = false) :
    (attachButtonsToReader st r).appended =
      [ { button := getButton Direction.previous, win := w, delta := -1 }
      , { button := getButton Direction.next, win := w, delta := 1 } ] ∧
    ((attachButtonsToReader st r).appended).map simulateClick =
      [ { win := w, pages := -1 }, { win := w, pages := 1 } ] := by
  rw [attach_success_eq st r f w cs hTab hDoc hIf hKind hWin hTb hNo]
  exact ⟨rfl, rfl⟩

/-- Witness for C3 at a concrete ready reader. -/
theorem attach_click_wiring_witness :
    (attachButtonsToReader initialState (goodEnv "T")).appended =
      [ { button := getButton Direction.previous, win := win0, delta := -1 }
      , { button := getButton Direction.next, win := win0, delta := 1 } ] ∧
    ((attachButtonsToReader initialState (goodEnv "T")).appended).map simulateClick =
      [ { win := win0, pages := -1 }, { win := win0, pages := 1 } ] :=
  attach_click_wiring initialState (goodEnv "T") frame0 win0 []
    (by decide) rfl rfl (by decide) rfl rfl (by decide)

/-- Claim C8: the two programmer-error guards are exactly the throwing
operations — registerObserver throws precisely when an observer id is
already stored and otherwise stores the new id, and storeAddedElement
throws precisely when the element id is empty and otherwise records it;
every other operation of the embedding returns a plain result on every
input (its source has no throw site). -/
theorem only_programmer_error_guards_throw :
    (∀ st newID oid, st.observerID = some oid →
      registerObserver st newID
        = Except.error PluginError.observerAlreadyRegistered) ∧
    (∀ st newID, st.observerID = none →
      registerObserver st newID
        = Except.ok { st with observerID := some newID }) ∧
    (∀ st, storeAddedElement st ""
        = Except.error PluginError.elementMustHaveId) ∧
    (∀ st elemId, elemId ≠ "" →
      storeAddedElement st elemId
        = Except.ok { st with addedElementIDs := st.addedElementIDs ++ [elemId] }) := by
  refine ⟨?_, ?_, ?_, ?_⟩
  · intro st newID oid h
    simp [registerObserver, h]
  · intro st newID h
    simp [registerObserver, h]
  · intro st
    simp [storeAddedElement]
  · intro st elemId h
    simp [storeAddedElement, h]

/-- Witness for C8 at concrete states. -/
theorem only_programmer_error_guards_throw_witness :
    registerObserver { initialState with observerID := some "obs1" } "obs2"
        = Except.error PluginError.observerAlreadyRegistered ∧
    registerObserver initialState "obs1"
        = Except.ok { initialState with observerID := some "obs1" } ∧
    storeAddedElement initialState ""
        = Except.error PluginError.elementMustHaveId ∧
    storeAddedElement initialState "menu-item"
        = Except.ok { initialState with
            addedElementIDs := initialState.addedElementIDs ++ ["menu-item"] } :=
  ⟨only_programmer_error_guards_throw.1 _ "obs2" "obs1" rfl,
   only_programmer_error_guards_throw.2.1 initialState "obs1" rfl,
   only_programmer_error_guards_throw.2.2.1 initialState,
   only_programmer_error_guards_throw.2.2.2 initialState "menu-item" (by decide)⟩

/-- Counterexample to claim C1 as stated: it quantifies over any reader
handle, but for a handle whose toolbar section is missing, two
successive invocations for the same tab leave zero button pairs (not
exactly one), and the second invocation logs a diagnostic instead of
returning silently from the set-membership guard. -/
theorem attach_idempotence_cex :
    pairsIn (toolbarAfter
        (envAfter (noToolbarEnv "T")
          (attachButtonsToReader initialState (noToolbarEnv "T")))
        (attachButtonsToReader
          (attachButtonsToReader initialState (noToolbarEnv "T")).state
          (envAfter (noToolbarEnv "T")
            (attachButtonsToReader initialState (noToolbarEnv "T")))))
      ≠ (1, 1) ∧
    (attachButtonsToReader
        (attachButtonsToReader initialState (noToolbarEnv "T")).state
        (envAfter (noToolbarEnv "T")
          (attachButtonsToReader initialState (noToolbarEnv "T")))).logs
      ≠ [] := by
  decide

/-- Claim C1 (amended): for a reader handle satisfying the attachment
preconditions, invoking attachButtonsToReader twice in succession with
the same tab identifier results in exactly one pair of buttons in that
tab's toolbar, and the second invocation performs no DOM mutation and no
other side effect — the set-membership guard causes an immediate
return. -/
theorem attach_idempotent_per_tab (st : PluginState) (r : ReaderEnv)
    (h : attachReady st r) :
    pairsIn (toolbarAfter (envAfter r (attachButtonsToReader st r))
        (attachButtonsToReader (attachButtonsToReader st r).state
          (envAfter r (attachButtonsToReader st r)))) = (1, 1) ∧
    attachButtonsToReader (attachButtonsToReader st r).state
        (envAfter r (attachButtonsToReader st r)) =
      { state := (attachButtonsToReader st r).state, logs := []
        appended := [], stalled := false } := by
  obtain ⟨hTab, hDoc, ⟨f, hIf, hKind, w, hWin⟩, ⟨cs, hTb, hNo⟩⟩ := h
  rw [attach_success_eq st r f w cs hTab hDoc hIf hKind hWin hTb hNo]
  dsimp only [envAfter]
  rw [attach_guard_eq _ _ (by simp)]
  refine ⟨?_, rfl⟩
  simp only [toolbarAfter, hTb]
  simpa using pairsIn_append_pair cs hNo

/-- Witness for the amended C1 at a concrete ready reader. -/
theorem attach_idempotent_per_tab_witness :
    pairsIn (toolbarAfter
        (envAfter (goodEnv "T") (attachButtonsToReader initialState (goodEnv "T")))
        (attachButtonsToReader
          (attachButtonsToReader initialState (goodEnv "T")).state
          (envAfter (goodEnv "T")
            (attachButtonsToReader initialState (goodEnv "T"))))) = (1, 1) ∧
    attachButtonsToReader (attachButtonsToReader initialState (goodEnv "T")).state
        (envAfter (goodEnv "T") (attachButtonsToReader initialState (goodEnv "T"))) =
      { state := (attachButtonsToReader initialState (goodEnv "T")).state, logs := []
        appended := [], stalled := false } :=
  attach_idempotent_per_tab initialState (goodEnv "T")
    ⟨by decide, rfl, ⟨frame0, rfl, by decide, win0, rfl⟩, ⟨[], rfl, rfl⟩⟩

/-- Counterexample to claim C4 as stated: it reads "processed" as
proceeding past the initial guard into the attachment body, but after a
soft failure the tab is not recorded, so a second render event for the
same tab enters the body again — here twice in one lifetime. -/
theorem attach_body_reentry_cex :
    ¬ bodyEntries initialState [noToolbarEnv "T", noToolbarEnv "T"] "T" ≤ 1 := by
  decide

/-- Claim C4 (amended): for every tab identifier and every sequence of
attach invocations, at most one invocation completes the attachment body
(appends the buttons and records the identifier); invocations that
soft-fail leave the tab unrecorded and the body may be re-entered until
one attempt completes. -/
theorem attach_completes_at_most_once (st : PluginState)
    (events : List ReaderEnv) (tab : String) :
    completedAttaches st events tab ≤ 1 := by
  induction events generalizing st with
  | nil => simp [completedAttaches]
  | cons r rest ih =>
    show (if r.tabID = tab ∧ (attachButtonsToReader st r).appended ≠ [] then 1 else 0)
        + completedAttaches (attachButtonsToReader st r).state rest tab ≤ 1
    by_cases hc : r.tabID = tab ∧ (attachButtonsToReader st r).appended ≠ []
    · have hmem : tab ∈ (attachButtonsToReader st r).state.updatedTabs := by
        rw [attach_appended_state st r hc.2, hc.1]
        simp
      rw [if_pos hc, completedAttaches_zero rest _ tab hmem]
    · rw [if_neg hc]
      simpa using ih (attachButtonsToReader st r).state

/-- Helper lemma: one-step unfolding of `attachAll`. -/
theorem attachAll_cons (st : PluginState) (r : ReaderEnv) (rest : List ReaderEnv) :
    attachAll st (r :: rest)
      = ((attachAll (attachButtonsToReader st r).state rest).1,
         (r, attachButtonsToReader st r)
           :: (attachAll (attachButtonsToReader st r).state rest).2) := rfl

/-- Helper lemma: `attachAll` on no readers. -/
theorem attachAll_nil (st : PluginState) : attachAll st [] = (st, []) := rfl

/-- Helper lemma: running `attachAll` over ready readers with fresh,
pairwise-distinct tab ids attaches one button pair to every reader and
appends every tab id to the attached-tab set, in order. -/
theorem attachAll_ready_run (readers : List ReaderEnv) (st : PluginState)
    (hready : ∀ r ∈ readers, readyEnv r)
    (hfresh : ∀ r ∈ readers, r.tabID ∉ st.updatedTabs)
    (hdist : readers.Pairwise (fun a b => a.tabID ≠ b.tabID)) :
    (attachAll st readers).1.updatedTabs
        = st.updatedTabs ++ readers.map ReaderEnv.tabID ∧
    ((attachAll st readers).2).map (fun pr => pairsIn (toolbarAfter pr.1 pr.2))
        = readers.map (fun _ => (1, 1)) ∧
    ((attachAll st readers).2).map (fun pr => (pr.2).appended.length)
        = readers.map (fun _ => 2) := by
  induction readers generalizing st with
  | nil => simp [attachAll]
  | cons r rest ih =>
    obtain ⟨hDoc, ⟨f, hIf, hKind, w, hWin⟩, ⟨cs, hTb, hNo⟩⟩ :=
      hready r (List.mem_cons_self r rest)
    have hTab : r.tabID ∉ st.updatedTabs := hfresh r (List.mem_cons_self r rest)
    have e := attach_success_eq st r f w cs hTab hDoc hIf hKind hWin hTb hNo
    have hpair : pairsIn (toolbarAfter r (attachButtonsToReader st r)) = (1, 1) := by
      rw [e]
      simp only [toolbarAfter, hTb]
      simpa using pairsIn_append_pair cs hNo
    have hlen : (attachButtonsToReader st r).appended.length = 2 := by
      rw [e]
      rfl
    have hstate : (attachButtonsToReader st r).state
        = { st with updatedTabs := st.updatedTabs ++ [r.tabID] } := by
      rw [e]
    have hfresh2 : ∀ x ∈ rest,
        x.tabID ∉ (attachButtonsToReader st r).state.updatedTabs := by
      intro x hx
      rw [hstate]
      have h1 : x.tabID ∉ st.updatedTabs := hfresh x (List.mem_cons_of_mem r hx)
      have h2 : r.tabID ≠ x.tabID := (List.pairwise_cons.mp hdist).1 x hx
      simp only [List.mem_append, List.mem_singleton]
      rintro (hin | heq)
      · exact h1 hin
      · exact h2 heq.symm
    obtain ⟨ih1, ih2, ih3⟩ := ih (attachButtonsToReader st r).state
      (fun x hx => hready x (List.mem_cons_of_mem r hx))
      hfresh2
      (List.pairwise_cons.mp hdist).2
    rw [attachAll_cons]
    dsimp only
    refine ⟨?_, ?_, ?_⟩
    · rw [ih1, hstate]
      simp
    · simp [hpair, ih2]
    · simp [hlen, ih3]

/-- Claim C5: startup attempts attachment for exactly the existing
snapshot readers and records an individual outcome for each; with three
ready snapshot readers tagged A, B, C, every one of them receives
exactly one button pair and the attached-tab set becomes {A, B, C}; and
one tab's soft failure (here B's missing document) does not abort the
attachments of the others. -/
theorem startup_attaches_existing_snapshot_tabs :
    (∀ (st : PluginState) (readers : List ReaderEnv),
      ((startup st readers).2).map Prod.fst = readers.filter isSnapshotReader) ∧
    (∀ rA rB rC : ReaderEnv,
      rA.tabID = "A" → rB.tabID = "B" → rC.tabID = "C" →
      rA.rtype = "snapshot" → rB.rtype = "snapshot" → rC.rtype = "snapshot" →
      readyEnv rA → readyEnv rB → readyEnv rC →
      (startup initialState [rA, rB, rC]).1.updatedTabs = ["A", "B", "C"] ∧
      ((startup initialState [rA, rB, rC]).2).map
          (fun pr => pairsIn (toolbarAfter pr.1 pr.2)) = [(1, 1), (1, 1), (1, 1)]) ∧
    ((startup initialState [goodEnv "A", noDocEnv "B", goodEnv "C"]).1.updatedTabs
        = ["A", "C"] ∧
     ((startup initialState [goodEnv "A", noDocEnv "B", goodEnv "C"]).2).map
        (fun pr => (pr.2).appended.length) = [2, 0, 2]) := by
  refine ⟨?_, ?_, ?_⟩
  · intro st readers
    unfold startup handleExistingTabs
    exact attachAll_map_fst _ _
  · intro rA rB rC hA hB hC hsA hsB hsC hgA hgB hgC
    have hfilter : [rA, rB, rC].filter isSnapshotReader = [rA, rB, rC] := by
      simp [List.filter_cons, isSnapshotReader, hsA, hsB, hsC]
    have hstart : startup initialState [rA, rB, rC]
        = attachAll startedState [rA, rB, rC] := by
      unfold startup handleExistingTabs startedState
      rw [hfilter]
    have hready : ∀ r ∈ [rA, rB, rC], readyEnv r := by
      intro r hr
      simp only [List.mem_cons, List.not_mem_nil, or_false] at hr
      rcases hr with h | h | h
      · exact h ▸ hgA
      · exact h ▸ hgB
      · exact h ▸ hgC
    have hfresh : ∀ r ∈ [rA, rB, rC], r.tabID ∉ startedState.updatedTabs := by
      intro r _
      simp [startedState, initialState]
    have hdist : [rA, rB, rC].Pairwise (fun a b => a.tabID ≠ b.tabID) := by
      simp [List.pairwise_cons, hA, hB, hC]
    obtain ⟨h1, h2, h3⟩ := attachAll_ready_run [rA, rB, rC] startedState hready hfresh hdist
    rw [hstart]
    constructor
    · rw [h1]
      simp [startedState, initialState, hA, hB, hC]
    · rw [h2]
      rfl
  · constructor
    · decide
    · decide

/-- Witness for C5 at three concrete ready snapshot readers. -/
theorem startup_attaches_existing_snapshot_tabs_witness :
    ((startup initialState [goodEnv "A", goodEnv "B", goodEnv "C"]).2).map Prod.fst
        = [goodEnv "A", goodEnv "B", goodEnv "C"].filter isSnapshotReader ∧
    (startup initialState [goodEnv "A", goodEnv "B", goodEnv "C"]).1.updatedTabs
        = ["A", "B", "C"] ∧
    ((startup initialState [goodEnv "A", goodEnv "B", goodEnv "C"]).2).map
        (fun pr => pairsIn (toolbarAfter pr.1 pr.2)) = [(1, 1), (1, 1), (1, 1)] :=
  ⟨startup_attaches_existing_snapshot_tabs.1 initialState
      [goodEnv "A", goodEnv "B", goodEnv "C"],
   startup_attaches_existing_snapshot_tabs.2.1
      (goodEnv "A") (goodEnv "B") (goodEnv "C") rfl rfl rfl rfl rfl rfl
      ⟨rfl, ⟨frame0, rfl, by decide, win0, rfl⟩, ⟨[], rfl, rfl⟩⟩
      ⟨rfl, ⟨frame0, rfl, by decide, win0, rfl⟩, ⟨[], rfl, rfl⟩⟩
      ⟨rfl, ⟨frame0, rfl, by decide, win0, rfl⟩, ⟨[], rfl, rfl⟩⟩⟩

/-- Helper lemma: the observables of one attach invocation do not depend
on the isActive flag. -/
theorem resultObs_setActive (st : PluginState) (b : Bool) (r : ReaderEnv) :
    resultObs (attachButtonsToReader (setActive st b) r)
      = resultObs (attachButtonsToReader st r) := by
  obtain ⟨h1, h2, h3, h4⟩ := attach_setActive st b r
  unfold resultObs
  rw [h1, h2, h3, h4]
  rfl

/-- Helper lemma: the observables of a whole startup run do not depend
on the isActive flag. -/
theorem startupObs_setActive (st : PluginState) (b : Bool)
    (readers : List ReaderEnv) :
    startupObs (startup (setActive st b) readers)
      = startupObs (startup st readers) := by
  have hcomm : ({ setActive st b with listenerRegistered := true } : PluginState)
      = setActive { st with listenerRegistered := true } b := rfl
  unfold startup handleExistingTabs startupObs
  rw [hcomm]
  obtain ⟨h1, h2⟩ := attachAll_setActive (readers.filter isSnapshotReader)
    { st with listenerRegistered := true } b
  rw [h1, h2]
  rfl

/-- Claim C9: noninterference of the private isActive flag — two runs
that differ only in the flag's value produce identical observables
(attached-tab set, other state fields, logs, appended buttons, stall
behavior, per-tab outcomes) for attachButtonsToReader, onRenderToolbar,
startup, and shutdown; the flag is written by the menu-item command
handler, which changes no other observable, and read by none of these
operations. -/
theorem isActive_noninterference (st : PluginState) (b1 b2 : Bool)
    (r : ReaderEnv) (readers : List ReaderEnv) :
    resultObs (attachButtonsToReader (setActive st b1) r)
        = resultObs (attachButtonsToReader (setActive st b2) r) ∧
    resultObs (onRenderToolbar (setActive st b1) r)
        = resultObs (onRenderToolbar (setActive st b2) r) ∧
    startupObs (startup (setActive st b1) readers)
        = startupObs (startup (setActive st b2) readers) ∧
    stateObs (shutdown (setActive st b1)) = stateObs (shutdown (setActive st b2)) ∧
    stateObs (menuItemCommand st b1) = stateObs st := by
  refine ⟨?_, ?_, ?_, rfl, rfl⟩
  · rw [resultObs_setActive, resultObs_setActive]
  · unfold onRenderToolbar
    by_cases hs : isSnapshotReader r = true
    · rw [if_pos hs, if_pos hs, resultObs_setActive, resultObs_setActive]
    · rw [if_neg hs, if_neg hs]
      rfl
  · rw [startupObs_setActive, startupObs_setActive]

end ZPS
